import Mathlib

/-!
# Verification of the GPU ray-casting volume renderer

Shallow embedding of the two fragment shaders of the repository:

* the *lighting* shader (`volume_rendering_lighting.frag`): procedural scalar
  field (two cubes and a sphere), piecewise transfer function, a `for` loop of
  at most `sampleNum = 256` steps with early ray termination, front-to-back
  compositing with premultiplied colors;
* the *overlay* shader (`volume_rendering_overlay_rendering` source): a
  texture-backed scalar field (modelled as an arbitrary function `Vec3 → ℚ`),
  a threshold transfer function, and a `while (t < tFar && i < sampleNum)`
  loop whose counter `i` is never incremented and whose accumulation step is
  the placeholder `composedColor = vec4(0.5) * value`.

Scalar arithmetic is modelled exactly over `ℚ` (the shader's decimal literals
become the corresponding rationals).  The camera stage (orbit position, view
frustum, `normalize`) involves trigonometry and square roots and is abstracted:
every pipeline function takes the ray origin `camPos` and ray direction
`rayDir` as inputs, and the stubbed gradient estimate and the `normalize` call
on the gradient (whose results feed only into the identity `lighting`
function) are abstracted as function parameters.
-/

/-- A 3-component vector of exact rationals (GLSL `vec3`). -/
structure Vec3 where
  x : ℚ
  y : ℚ
  z : ℚ
deriving DecidableEq, Repr

/-- A 4-component RGBA color of exact rationals (GLSL `vec4`). -/
structure Vec4 where
  r : ℚ
  g : ℚ
  b : ℚ
  a : ℚ
deriving DecidableEq, Repr

instance : Add Vec3 := ⟨fun u v => ⟨u.x + v.x, u.y + v.y, u.z + v.z⟩⟩

instance : Sub Vec3 := ⟨fun u v => ⟨u.x - v.x, u.y - v.y, u.z - v.z⟩⟩

instance : Neg Vec3 := ⟨fun v => ⟨-v.x, -v.y, -v.z⟩⟩

instance : SMul ℚ Vec3 := ⟨fun c v => ⟨c * v.x, c * v.y, c * v.z⟩⟩

instance : Add Vec4 := ⟨fun u v => ⟨u.r + v.r, u.g + v.g, u.b + v.b, u.a + v.a⟩⟩

instance : SMul ℚ Vec4 := ⟨fun c v => ⟨c * v.r, c * v.g, c * v.b, c * v.a⟩⟩

/-- GLSL `vec4(0.0F)`. -/
def zero4 : Vec4 := ⟨0, 0, 0, 0⟩

/-- GLSL `vec3(0.0F)`. -/
def zero3 : Vec3 := ⟨0, 0, 0⟩

/-- Componentwise `min` of two `vec3`s (GLSL `min`). -/
def Vec3.minc (u v : Vec3) : Vec3 := ⟨min u.x v.x, min u.y v.y, min u.z v.z⟩

/-- Componentwise `max` of two `vec3`s (GLSL `max`). -/
def Vec3.maxc (u v : Vec3) : Vec3 := ⟨max u.x v.x, max u.y v.y, max u.z v.z⟩

/-- Componentwise product of two `vec3`s (GLSL `*`). -/
def Vec3.mulc (u v : Vec3) : Vec3 := ⟨u.x * v.x, u.y * v.y, u.z * v.z⟩

/-- Result record of `intersectBoundingBox`: the two `out` parameters and the
returned hit flag. -/
structure HitResult where
  tNear : ℚ
  tFar : ℚ
  hit : Bool
deriving DecidableEq, Repr

/-- Function `intersectBoundingBox`, shared verbatim by both shaders (they differ only
in the `bbMin`/`bbMax` constants, taken here as parameters):

```
vec3 invR = vec3(1.0F) / rayDir;
vec3 tbot = invR * (bbMin - rayOrig);
vec3 ttop = invR * (bbMax - rayOrig);
vec3 tmin = min(ttop, tbot);
vec3 tmax = max(ttop, tbot);
float largestTMin = max(max(tmin.x, tmin.y), max(tmin.x, tmin.z));
float smallestTMax = min(min(tmax.x, tmax.y), min(tmax.x, tmax.z));
tNear = largestTMin;  tFar = smallestTMax;
return smallestTMax > largestTMin;
```

`1/0 = 0` in `ℚ`, so a zero direction component is not modelled by IEEE
infinities; the claims proved about this function are arithmetic identities
between its own intermediate values, which hold under either convention. -/
def intersectBoundingBox (bbMin bbMax rayOrig rayDir : Vec3) : HitResult :=
  let invR : Vec3 := ⟨1 / rayDir.x, 1 / rayDir.y, 1 / rayDir.z⟩
  let tbot := invR.mulc (bbMin - rayOrig)
  let ttop := invR.mulc (bbMax - rayOrig)
  let tmin := Vec3.minc ttop tbot
  let tmax := Vec3.maxc ttop tbot
  let largestTMin := max (max tmin.x tmin.y) (max tmin.x tmin.z)
  let smallestTMax := min (min tmax.x tmax.y) (min tmax.x tmax.z)
  ⟨largestTMin, smallestTMax, decide (largestTMin < smallestTMax)⟩

/-- Spec-side description (from the spec's words, for the refinement claim
C2): the per-axis slab minimum `min(tbot_i, ttop_i)` for one axis. -/
def slabMin (bbLo bbHi o d : ℚ) : ℚ := min ((bbLo - o) / d) ((bbHi - o) / d)

/-- Spec-side description: the per-axis slab maximum `max(tbot_i, ttop_i)`. -/
def slabMax (bbLo bbHi o d : ℚ) : ℚ := max ((bbLo - o) / d) ((bbHi - o) / d)

/-- Spec-side description: entry distance = maximum over the three axes of the
per-axis slab minima. -/
def specEntry (bbMin bbMax o d : Vec3) : ℚ :=
  max (slabMin bbMin.x bbMax.x o.x d.x)
    (max (slabMin bbMin.y bbMax.y o.y d.y) (slabMin bbMin.z bbMax.z o.z d.z))

/-- Spec-side description: exit distance = minimum over the three axes of the
per-axis slab maxima. -/
def specExit (bbMin bbMax o d : Vec3) : ℚ :=
  min (slabMax bbMin.x bbMax.x o.x d.x)
    (min (slabMax bbMin.y bbMax.y o.y d.y) (slabMax bbMin.z bbMax.z o.z d.z))

/-! ## The overlay (texture-backed) shader -/

/-- Source constant `const vec3 bbMin = vec3(-0.5F);` of the overlay shader. -/
def Overlay.bbMin : Vec3 := ⟨-(1/2), -(1/2), -(1/2)⟩

/-- Source constant `const vec3 bbMax = vec3(0.5F);` of the overlay shader. -/
def Overlay.bbMax : Vec3 := ⟨1/2, 1/2, 1/2⟩

/-- Source constant `const int sampleNum = 150;` of the overlay shader. -/
def Overlay.sampleNum : ℤ := 150

/-- Source constant `const float voxelWidth = 1.0F / 64.0F;` of the overlay shader. -/
def Overlay.voxelWidth : ℚ := 1 / 64

/-- Source expression `float rayStepSize = (bbMax.x - bbMin.x) / float(sampleNum);` -/
def Overlay.rayStepSize : ℚ := (Overlay.bbMax.x - Overlay.bbMin.x) / 150

/-- Source expression `float opacityCorrectionFactor = 1.0F / (float(sampleNum) * voxelWidth);` -/
def Overlay.opacityCorrectionFactor : ℚ := 1 / (150 * Overlay.voxelWidth)

/-- Source expression `vec4 background = vec4(0.0F, 0.0F, 0.0F, 1.0F);` of the overlay shader. -/
def Overlay.background : Vec4 := ⟨0, 0, 0, 1⟩

/-- The overlay shader's transfer function:

```
if (value < 0.5F) return vec4(0.0F);
return vec4(value);
```
-/
def Overlay.transferFunction (value : ℚ) : Vec4 :=
  if value < 1/2 then zero4 else ⟨value, value, value, value⟩

/-- The overlay shader's accumulation step:

```
vec4 color = transferFunction(value);
color.a = opacityCorrection(color.a, opacityCorrectionFactor);
// TODO: Implement Front-to-back blending
composedColor = vec4(0.5) * value; // placeholder
```

The local `color` (including the opacity-corrected alpha written into
`color.a`) is dead: the placeholder overwrites `composedColor` without reading
either `color` or the incoming `composedColor`.  The dead binding of the
transfer function is kept; the opacity-corrected alpha (a real-power
expression) is dead code and omitted from this computable model. -/
def Overlay.accumulation (value : ℚ) (opacityCorrectionFactor : ℚ)
    (composedColor : Vec4) : Vec4 :=
  let _color := Overlay.transferFunction value
  let _ := opacityCorrectionFactor
  let _ := composedColor
  ⟨(1/2) * value, (1/2) * value, (1/2) * value, (1/2) * value⟩

/-- The overlay shader's main ray-casting loop

```
float t = tNear;  int i = 0;
while (t < tFar && i < sampleNum) {
    vec3 pos = camPos + t * rayDir;
    vec3 texCoord = pos + 0.5F;
    float value = sampleVolume(texCoord);
    accumulation(value, opacityCorrectionFactor, finalColor);
    t += rayStepSize;
}
```

modelled with explicit fuel `n` (the loop guard, not the fuel, is what stops
the loop: see the fuel-irrelevance theorem).  `tex` abstracts the 3D texture
lookup `texture(textureSampler, texCoord).r`.  Besides the accumulated color
the model returns the list of parametric distances `t` at which samples were
taken, in order. -/
def Overlay.loop (tex : Vec3 → ℚ) (camPos rayDir : Vec3) (tFar : ℚ) :
    ℕ → ℚ → ℤ → Vec4 → Vec4 × List ℚ
  | 0, _, _, finalColor => (finalColor, [])
  | n + 1, t, i, finalColor =>
    if t < tFar ∧ i < Overlay.sampleNum then
      let pos := camPos + t • rayDir
      let texCoord := pos + (⟨1/2, 1/2, 1/2⟩ : Vec3)
      let value := tex texCoord
      let finalColor' := Overlay.accumulation value Overlay.opacityCorrectionFactor finalColor
      let rest := Overlay.loop tex camPos rayDir tFar n (t + Overlay.rayStepSize) i finalColor'
      (rest.1, t :: rest.2)
    else (finalColor, [])

/-- The number of loop iterations forced by the guard `t < tFar` alone:
`⌈(tFar − t) / rayStepSize⌉`, clamped to `ℕ`.  Used as the fuel for
`Overlay.loop`; the fuel-irrelevance theorem shows any fuel at least this
large gives the same result, so the model is faithful to the unbounded
`while` loop. -/
def Overlay.guardSteps (tFar t : ℚ) : ℕ := (⌈(tFar - t) / Overlay.rayStepSize⌉).toNat

/-- Function `mainImage` of the overlay shader, from the bounding-box test onward (the
camera stage is abstracted into the `camPos`/`rayDir` inputs):

```
bool hit = intersectBoundingBox(camPos, rayDir, tNear, tFar);
vec4 background = vec4(0.0F, 0.0F, 0.0F, 1.0F);
if (!hit) { fragColor = background; return; }
float rayStepSize = (bbMax.x - bbMin.x) / float(sampleNum);
vec4 finalColor = vec4(0.0F);
float opacityCorrectionFactor = 1.0F / (float(sampleNum) * voxelWidth);
float t = tNear;  int i = 0;
while (t < tFar && i < sampleNum) { ... }
fragColor.rgb = mix(background.rgb, finalColor.rgb, finalColor.a);
fragColor.a = 1.0F;
```
-/
def Overlay.mainImage (tex : Vec3 → ℚ) (camPos rayDir : Vec3) : Vec4 :=
  let res := intersectBoundingBox Overlay.bbMin Overlay.bbMax camPos rayDir
  if !res.hit then Overlay.background
  else
    let fc := (Overlay.loop tex camPos rayDir res.tFar
      (Overlay.guardSteps res.tFar res.tNear) res.tNear 0 zero4).1
    ⟨Overlay.background.r * (1 - fc.a) + fc.r * fc.a,
     Overlay.background.g * (1 - fc.a) + fc.g * fc.a,
     Overlay.background.b * (1 - fc.a) + fc.b * fc.a, 1⟩

/-! ## The lighting (procedural) shader -/

/-- Source constant `const vec4 cube1 = vec4(0.0F, 0.0F, 0.0F, 1.0F);` (center, half-width). -/
def Lighting.cube1 : Vec3 × ℚ := (⟨0, 0, 0⟩, 1)

/-- Source constant `const vec4 cube2 = vec4(1.0F, 1.0F, 1.0F, 1.5F);` -/
def Lighting.cube2 : Vec3 × ℚ := (⟨1, 1, 1⟩, 3/2)

/-- Source constant `const vec4 sphere1 = vec4(1.0F, 0.0F, 3.0F, 0.5F);` (center, radius). -/
def Lighting.sphere1 : Vec3 × ℚ := (⟨1, 0, 3⟩, 1/2)

/-- Source constant `const float cube1Density = 0.015F;` -/
def Lighting.cube1Density : ℚ := 15/1000

/-- Source constant `const float cube2Density = 0.02F;` -/
def Lighting.cube2Density : ℚ := 2/100

/-- Source constant `const float sphere1Density = 0.03F;` -/
def Lighting.sphere1Density : ℚ := 3/100

/-- Source constant `const vec3 bbMin = vec3(-3.5F);` of the lighting shader. -/
def Lighting.bbMin : Vec3 := ⟨-(7/2), -(7/2), -(7/2)⟩

/-- Source constant `const vec3 bbMax = vec3(3.5F);` of the lighting shader. -/
def Lighting.bbMax : Vec3 := ⟨7/2, 7/2, 7/2⟩

/-- Source constant `const int sampleNum = 256;` of the lighting shader. -/
def Lighting.sampleNum : ℕ := 256

/-- Source constant `const float EPS = 1.0E-7F;` -/
def Lighting.EPS : ℚ := 1 / 10000000

/-- Source expression `float rayStepSize = (bbMax.x - bbMin.x) / float(sampleNum);` -/
def Lighting.rayStepSize : ℚ := (Lighting.bbMax.x - Lighting.bbMin.x) / 256

/-- Source expression `vec4 background = vec4(0.0F, 0.0F, 0.0F, 1.0F);` of the lighting shader. -/
def Lighting.background : Vec4 := ⟨0, 0, 0, 1⟩

/-- Predicate `isInSphere`:

```
vec3 spherePos = sphere.xyz;
return length(point - spherePos) <= sphere.w;
```

`length(v) <= w` is modelled by the equivalent squared comparison
`dot(v,v) <= w*w` (both sides of the source comparison are nonnegative, the
radius being `0.5`), which keeps the definition inside `ℚ`. -/
def Lighting.isInSphere (point : Vec3) (sphere : Vec3 × ℚ) : Bool :=
  let d := point - sphere.1
  decide (d.x * d.x + d.y * d.y + d.z * d.z ≤ sphere.2 * sphere.2)

/-- Predicate `isInCube`:

```
vec3 dist = abs(point.xyz - cube.xyz);
return all(lessThan(dist, vec3(cube.w)));
```
-/
def Lighting.isInCube (point : Vec3) (cube : Vec3 × ℚ) : Bool :=
  let dist := point - cube.1
  decide (|dist.x| < cube.2) && decide (|dist.y| < cube.2) && decide (|dist.z| < cube.2)

/-- Function `sampleVolume` of the lighting shader: the procedural scalar field, the sum
of the densities of the primitives containing the point. -/
def Lighting.sampleVolume (volumeCoord : Vec3) : ℚ :=
  let in1 := Lighting.isInCube volumeCoord Lighting.cube1
  let in2 := Lighting.isInCube volumeCoord Lighting.cube2
  let in3 := Lighting.isInSphere volumeCoord Lighting.sphere1
  (if in1 then Lighting.cube1Density else 0)
    + (if in2 then Lighting.cube2Density else 0)
    + (if in3 then Lighting.sphere1Density else 0)

/-- Function `transferFunction` of the lighting shader: nested threshold tests mapping a
density to one of four opaque colors, or transparent at (or below) `EPS`:

```
if (value > EPS) {
    if (value > cube1Density + EPS) {
        if (value > cube2Density + EPS) {
            if (value > cube1Density + cube2Density + EPS)
                return vec4(0.0F, 0.0F, 0.0F, 1.0F);
            return vec4(1.0F, 0.0F, 0.0F, 1.0F);
        }
        return vec4(0.0F, 1.0F, 0.0F, 1.0F);
    }
    return vec4(0.0F, 0.0F, 1.0F, 1.0F);
}
return vec4(0.0F);
```
-/
def Lighting.transferFunction (value : ℚ) : Vec4 :=
  if Lighting.EPS < value then
    if Lighting.cube1Density + Lighting.EPS < value then
      if Lighting.cube2Density + Lighting.EPS < value then
        if Lighting.cube1Density + Lighting.cube2Density + Lighting.EPS < value then
          ⟨0, 0, 0, 1⟩
        else ⟨1, 0, 0, 1⟩
      else ⟨0, 1, 0, 1⟩
    else ⟨0, 0, 1, 1⟩
  else zero4

/-- Function `lighting` of the lighting shader — a stub that returns the diffuse color
unchanged:

```
// TODO Insert code here
vec4 color = diffuseColor;
return color;
```
-/
def Lighting.lighting (diffuseColor : Vec4) (normal eyeDir : Vec3) : Vec4 :=
  let _ := normal
  let _ := eyeDir
  diffuseColor

/-- The premultiplication `color.rgb *= color.a;` of the loop body. -/
def Lighting.premultiply (c : Vec4) : Vec4 := ⟨c.r * c.a, c.g * c.a, c.b * c.a, c.a⟩

/-- One compositing step `finalColor += color * (1.0F - finalColor.w);` applied
to a premultiplied color. -/
def Lighting.composite (finalColor c : Vec4) : Vec4 :=
  finalColor + (1 - finalColor.a) • c

/-- The lighting shader's main raycasting loop, one recursion step per `for`
iteration:

```
for (int i = 0; i < sampleNum; ++i) {
    if (finalColor.a > 0.99F) break; // early ray termination!
    pos += rayStepSize * rayDir;
    float sampleValue = sampleVolume(pos);
    vec4 color = transferFunction(sampleValue);
    vec3 grad = gradientIntermediate(pos);
    { finalGradient = grad; }
    color = lighting(color, -normalize(finalGradient), -rayDir);
    color.rgb *= color.a;
    finalColor += color * (1.0F - finalColor.w);
}
```

`gradFn` models `gradientIntermediate`, whose body returns an *uninitialized*
`vec3 result;`, and `nrmFn` models `normalize` (a square root); both feed only
the ignored arguments of the stub `lighting`.  The position is tracked through
its parametric distance `t` (`pos = camPos + t * rayDir`, which over `ℚ`
equals the source's incremental `pos += rayStepSize * rayDir` exactly).
Returns the accumulated color, the last-written `finalGradient`, and the list
of parametric distances at which samples were taken. -/
def Lighting.loop (gradFn nrmFn : Vec3 → Vec3) (camPos rayDir : Vec3) :
    ℕ → ℚ → Vec4 → Vec3 → Vec4 × Vec3 × List ℚ
  | 0, _, finalColor, finalGradient => (finalColor, finalGradient, [])
  | n + 1, t, finalColor, finalGradient =>
    if (99:ℚ)/100 < finalColor.a then (finalColor, finalGradient, [])
    else
      let t' := t + Lighting.rayStepSize
      let pos := camPos + t' • rayDir
      let sampleValue := Lighting.sampleVolume pos
      let c := Lighting.transferFunction sampleValue
      let grad := gradFn pos
      let fg := grad
      let c2 := Lighting.lighting c (-(nrmFn fg)) (-rayDir)
      let c3 := Lighting.premultiply c2
      let finalColor' := Lighting.composite finalColor c3
      let rest := Lighting.loop gradFn nrmFn camPos rayDir n t' finalColor' fg
      (rest.1, rest.2.1, t' :: rest.2.2)

/-- Function `mainImage` of the lighting shader, from the bounding-box test onward (the
camera stage is abstracted into the `camPos`/`rayDir` inputs):

```
bool hit = intersectBoundingBox(camPos, rayDir, tNear, tFar);
vec4 background = vec4(0.0F, 0.0F, 0.0F, 1.0F);
if (tNear < 0.0F) tNear = 0.0F;
if (!hit) { fragColor = background; return; }
vec3 pos = camPos + rayDir * tNear;
float rayStepSize = (bbMax.x - bbMin.x) / float(sampleNum);
vec4 finalColor = vec4(0.0F);
vec3 finalGradient = vec3(0.0F);
for (int i = 0; i < sampleNum; ++i) { ... }
fragColor = finalColor * finalColor.a + (1.0F - finalColor.a) * background;
```
-/
def Lighting.mainImage (gradFn nrmFn : Vec3 → Vec3) (camPos rayDir : Vec3) : Vec4 :=
  let res := intersectBoundingBox Lighting.bbMin Lighting.bbMax camPos rayDir
  let tNear := if res.tNear < 0 then 0 else res.tNear
  if !res.hit then Lighting.background
  else
    let fc := (Lighting.loop gradFn nrmFn camPos rayDir Lighting.sampleNum tNear zero4 zero3).1
    fc.a • fc + (1 - fc.a) • Lighting.background

/-! ## Opacity correction (the overlay shader's `opacityCorrection`) -/

/-- Function `opacityCorrection`:

```
float a_corrected = 1.0F - pow(1.0F - alpha, samplingRatio);
return a_corrected;
```

`pow` with an arbitrary real exponent is modelled by `Real.rpow`, so this one
definition lives over `ℝ`. -/
noncomputable def opacityCorrection (alpha r : ℝ) : ℝ :=
  1 - (1 - alpha) ^ r

/-- The sequence of accumulated alpha values produced by folding the lighting
shader's per-sample compositing (premultiplication `color.rgb *= color.a`
followed by `finalColor += color * (1 - finalColor.w)`) over a list of
per-sample colors, starting from the accumulator `acc`; the head is the
initial alpha. -/
def Lighting.alphaTrace (acc : Vec4) : List Vec4 → List ℚ
  | [] => [acc.a]
  | c :: cs =>
    acc.a :: Lighting.alphaTrace (Lighting.composite acc (Lighting.premultiply c)) cs

/-! ## Componentwise simp lemmas for the vector operations -/

@[simp] theorem Vec3.sub_x (u v : Vec3) : (u - v).x = u.x - v.x := rfl

@[simp] theorem Vec3.sub_y (u v : Vec3) : (u - v).y = u.y - v.y := rfl

@[simp] theorem Vec3.sub_z (u v : Vec3) : (u - v).z = u.z - v.z := rfl

@[simp] theorem Vec3.add_x (u v : Vec3) : (u + v).x = u.x + v.x := rfl

@[simp] theorem Vec3.add_y (u v : Vec3) : (u + v).y = u.y + v.y := rfl

@[simp] theorem Vec3.add_z (u v : Vec3) : (u + v).z = u.z + v.z := rfl

@[simp] theorem Vec3.smul_x (c : ℚ) (v : Vec3) : (c • v).x = c * v.x := rfl

@[simp] theorem Vec3.smul_y (c : ℚ) (v : Vec3) : (c • v).y = c * v.y := rfl

@[simp] theorem Vec3.smul_z (c : ℚ) (v : Vec3) : (c • v).z = c * v.z := rfl

@[simp] theorem Vec4.add_r (u v : Vec4) : (u + v).r = u.r + v.r := rfl

@[simp] theorem Vec4.add_g (u v : Vec4) : (u + v).g = u.g + v.g := rfl

@[simp] theorem Vec4.add_b (u v : Vec4) : (u + v).b = u.b + v.b := rfl

@[simp] theorem Vec4.add_a (u v : Vec4) : (u + v).a = u.a + v.a := rfl

@[simp] theorem Vec4.smul_r (c : ℚ) (v : Vec4) : (c • v).r = c * v.r := rfl

@[simp] theorem Vec4.smul_g (c : ℚ) (v : Vec4) : (c • v).g = c * v.g := rfl

@[simp] theorem Vec4.smul_b (c : ℚ) (v : Vec4) : (c • v).b = c * v.b := rfl

@[simp] theorem Vec4.smul_a (c : ℚ) (v : Vec4) : (c • v).a = c * v.a := rfl

/-! ## Claim C2: the slab intersector -/

/-- C2. `intersectBoundingBox` sets the entry distance `tNear` to the
maximum over the three axes of the per-axis slab minima, sets the exit
distance `tFar` to the minimum over the three axes of the per-axis slab
maxima, and returns `true` if and only if the exit distance strictly exceeds
the entry distance; in particular whenever `tNear ≥ tFar` it reports no
hit. -/
theorem C2_intersector_slab_method (bbMin bbMax rayOrig rayDir : Vec3) :
    (intersectBoundingBox bbMin bbMax rayOrig rayDir).tNear
        = specEntry bbMin bbMax rayOrig rayDir
      ∧ (intersectBoundingBox bbMin bbMax rayOrig rayDir).tFar
        = specExit bbMin bbMax rayOrig rayDir
      ∧ ((intersectBoundingBox bbMin bbMax rayOrig rayDir).hit = true
          ↔ (intersectBoundingBox bbMin bbMax rayOrig rayDir).tNear
              < (intersectBoundingBox bbMin bbMax rayOrig rayDir).tFar)
      ∧ ((intersectBoundingBox bbMin bbMax rayOrig rayDir).tFar
            ≤ (intersectBoundingBox bbMin bbMax rayOrig rayDir).tNear
          → (intersectBoundingBox bbMin bbMax rayOrig rayDir).hit = false) := by
  refine ⟨?_, ?_, ?_, ?_⟩
  · simp only [intersectBoundingBox, specEntry, slabMin, Vec3.minc, Vec3.maxc, Vec3.mulc,
      Vec3.sub_x, Vec3.sub_y, Vec3.sub_z, one_div_mul_eq_div]
    rw [max_max_max_comm, max_self]
    simp only [min_comm]
  · simp only [intersectBoundingBox, specExit, slabMax, Vec3.minc, Vec3.maxc, Vec3.mulc,
      Vec3.sub_x, Vec3.sub_y, Vec3.sub_z, one_div_mul_eq_div]
    rw [min_min_min_comm, min_self]
    simp only [max_comm]
  · simp only [intersectBoundingBox, decide_eq_true_eq]
  · simp only [intersectBoundingBox, decide_eq_false_iff_not, not_lt]
    intro h
    exact h

/-! ## Claim C4: the overlay accumulation placeholder -/

/-- C4. The overlay shader's accumulation step discards the previously
accumulated color and sets the composed color to `vec4(0.5) * value`, for
every prior color and every sample value. -/
theorem C4_accumulation_is_placeholder (value ocf : ℚ) (prior other : Vec4) :
    Overlay.accumulation value ocf prior
        = ⟨(1/2) * value, (1/2) * value, (1/2) * value, (1/2) * value⟩
      ∧ Overlay.accumulation value ocf prior = Overlay.accumulation value ocf other :=
  ⟨rfl, rfl⟩

/-! ## Claim C5: opacity correction -/

/-- C5. `opacityCorrection` computes `1 − (1 − alpha)^r`, and at unit
sampling ratio it is the identity on every alpha in `[0, 1]`. -/
theorem C5_opacityCorrection_unit_ratio (alpha r : ℝ) :
    opacityCorrection alpha r = 1 - (1 - alpha) ^ r
      ∧ (0 ≤ alpha → alpha ≤ 1 → opacityCorrection alpha 1 = alpha) := by
  refine ⟨rfl, fun _ _ => ?_⟩
  simp [opacityCorrection, Real.rpow_one]

/-- Witness for C5 at `alpha = 1/2`. -/
theorem C5_witness :
    (0:ℝ) ≤ 1/2 ∧ (1/2:ℝ) ≤ 1 ∧ opacityCorrection (1/2) 1 = (1/2 : ℝ) :=
  ⟨by norm_num, by norm_num,
    (C5_opacityCorrection_unit_ratio (1/2) 1).2 (by norm_num) (by norm_num)⟩

/-! ## Claim C3: accumulated alpha along a compositing sequence -/

/-- One compositing step of the lighting shader takes an accumulator with
alpha in `[0, 1]` and a per-sample color with alpha in `[0, 1]` to an
accumulator whose alpha has not decreased and is still in `[0, 1]`. -/
theorem Lighting.composite_alpha_step (acc c : Vec4)
    (h0 : 0 ≤ acc.a) (h1 : acc.a ≤ 1) (hc0 : 0 ≤ c.a) (hc1 : c.a ≤ 1) :
    acc.a ≤ (Lighting.composite acc (Lighting.premultiply c)).a
      ∧ 0 ≤ (Lighting.composite acc (Lighting.premultiply c)).a
      ∧ (Lighting.composite acc (Lighting.premultiply c)).a ≤ 1 := by
  simp only [Lighting.composite, Lighting.premultiply, Vec4.add_a, Vec4.smul_a]
  refine ⟨?_, ?_, ?_⟩
  · nlinarith
  · nlinarith
  · nlinarith

/-- The first element of an alpha trace is the initial accumulator's alpha. -/
theorem Lighting.alphaTrace_head (acc : Vec4) (cs : List Vec4) :
    (Lighting.alphaTrace acc cs).head? = some acc.a := by
  cases cs <;> rfl

/-- Monotonicity and boundedness of the alpha trace, generalized over the
starting accumulator. -/
theorem Lighting.alphaTrace_mono (cs : List Vec4) :
    ∀ acc : Vec4, 0 ≤ acc.a → acc.a ≤ 1 → (∀ c ∈ cs, 0 ≤ c.a ∧ c.a ≤ 1) →
      List.Chain' (· ≤ ·) (Lighting.alphaTrace acc cs)
        ∧ ∀ q ∈ Lighting.alphaTrace acc cs, 0 ≤ q ∧ q ≤ 1 := by
  induction cs with
  | nil =>
    intro acc h0 h1 _
    refine ⟨by simp [Lighting.alphaTrace], ?_⟩
    intro q hq
    simp only [Lighting.alphaTrace, List.mem_singleton] at hq
    exact hq ▸ ⟨h0, h1⟩
  | cons c cs ih =>
    intro acc h0 h1 hcs
    have hc := hcs c (List.mem_cons_self c cs)
    have hstep := Lighting.composite_alpha_step acc c h0 h1 hc.1 hc.2
    have hrest := ih (Lighting.composite acc (Lighting.premultiply c))
      hstep.2.1 hstep.2.2 (fun d hd => hcs d (List.mem_cons_of_mem c hd))
    refine ⟨?_, ?_⟩
    · rw [Lighting.alphaTrace, List.chain'_cons']
      refine ⟨?_, hrest.1⟩
      intro y hy
      rw [Lighting.alphaTrace_head] at hy
      cases hy
      exact hstep.1
    · intro q hq
      rw [Lighting.alphaTrace] at hq
      rcases List.mem_cons.mp hq with h | h
      · exact h ▸ ⟨h0, h1⟩
      · exact hrest.2 q h

/-- C3 (amended). In the *lighting* shader's front-to-back compositing,
across any sequence of composited samples whose per-sample alphas lie in
`[0, 1]`, the accumulated alpha starting from `vec4(0)` is non-decreasing
from step to step and stays within `[0, 1]`.  (The overlay shader's
placeholder accumulation violates this: see the counterexample.) -/
theorem C3_lighting_alpha_monotone (cs : List Vec4)
    (h : cs.all (fun c => decide (0 ≤ c.a) && decide (c.a ≤ 1)) = true) :
    List.Chain' (· ≤ ·) (Lighting.alphaTrace zero4 cs)
      ∧ (Lighting.alphaTrace zero4 cs).all
          (fun q => decide (0 ≤ q) && decide (q ≤ 1)) = true := by
  have h' : ∀ c ∈ cs, 0 ≤ c.a ∧ c.a ≤ 1 := by
    intro c hc
    have := List.all_eq_true.mp h c hc
    simpa using this
  have main := Lighting.alphaTrace_mono cs zero4 (by norm_num [zero4]) (by norm_num [zero4]) h'
  refine ⟨main.1, List.all_eq_true.mpr ?_⟩
  intro q hq
  have := main.2 q hq
  simpa using this

/-- Witness for C3 at the sample-color sequence `[blue-opaque, transparent]`. -/
theorem C3_witness :
    ([⟨0, 0, 1, 1⟩, zero4] : List Vec4).all
        (fun c => decide (0 ≤ c.a) && decide (c.a ≤ 1)) = true
      ∧ List.Chain' (· ≤ ·) (Lighting.alphaTrace zero4 [⟨0, 0, 1, 1⟩, zero4])
      ∧ (Lighting.alphaTrace zero4 [⟨0, 0, 1, 1⟩, zero4]).all
          (fun q => decide (0 ≤ q) && decide (q ≤ 1)) = true :=
  ⟨by with_unfolding_all decide,
    (C3_lighting_alpha_monotone [⟨0, 0, 1, 1⟩, zero4] (by with_unfolding_all decide)).1,
    (C3_lighting_alpha_monotone [⟨0, 0, 1, 1⟩, zero4] (by with_unfolding_all decide)).2⟩

/-- Counterexample to C3 as stated: the overlay shader's compositing step is
its `accumulation`, and chaining it over the sample values `1` then `1/5`
(whose classified colors both have alpha in `[0, 1]`) makes the accumulated
alpha *decrease* from `1/2` to `1/10`. -/
theorem C3_counterexample :
    (0 ≤ (Overlay.transferFunction 1).a ∧ (Overlay.transferFunction 1).a ≤ 1)
      ∧ (0 ≤ (Overlay.transferFunction (1/5)).a ∧ (Overlay.transferFunction (1/5)).a ≤ 1)
      ∧ (Overlay.accumulation (1/5) Overlay.opacityCorrectionFactor
            (Overlay.accumulation 1 Overlay.opacityCorrectionFactor zero4)).a
          < (Overlay.accumulation 1 Overlay.opacityCorrectionFactor zero4).a := by
  with_unfolding_all decide

/-! ## Claim C8: the transfer functions -/

/-- C8 (amended). The lighting shader's transfer function maps every value
at or below `EPS` to the fully transparent color, and every value above `EPS`
to one of four *constant* opaque colors selected by density band — a
piecewise-constant classification with a discontinuous jump at every band
boundary, not a piecewise-linear interpolation.  The overlay shader's transfer
function maps values below `1/2` to the transparent color and every value at
or above `1/2` to `vec4(value)` — a color that is not opaque (its alpha is the
value itself), not a palette interpolation. -/
theorem C8_transfer_piecewise_constant (v : ℚ) :
    (v ≤ Lighting.EPS → Lighting.transferFunction v = zero4)
      ∧ (Lighting.EPS < v → v ≤ Lighting.cube1Density + Lighting.EPS →
          Lighting.transferFunction v = ⟨0, 0, 1, 1⟩)
      ∧ (Lighting.cube1Density + Lighting.EPS < v →
          v ≤ Lighting.cube2Density + Lighting.EPS →
          Lighting.transferFunction v = ⟨0, 1, 0, 1⟩)
      ∧ (Lighting.cube2Density + Lighting.EPS < v →
          v ≤ Lighting.cube1Density + Lighting.cube2Density + Lighting.EPS →
          Lighting.transferFunction v = ⟨1, 0, 0, 1⟩)
      ∧ (Lighting.cube1Density + Lighting.cube2Density + Lighting.EPS < v →
          Lighting.transferFunction v = ⟨0, 0, 0, 1⟩)
      ∧ (v < 1/2 → Overlay.transferFunction v = zero4)
      ∧ (1/2 ≤ v → Overlay.transferFunction v = ⟨v, v, v, v⟩) := by
  refine ⟨fun h => ?_, fun h1 h2 => ?_, fun h1 h2 => ?_, fun h1 h2 => ?_, fun h => ?_,
    fun h => ?_, fun h => ?_⟩
  · simp [Lighting.transferFunction, not_lt.mpr h]
  · simp [Lighting.transferFunction, h1, not_lt.mpr h2]
  · have : Lighting.EPS < v := by
      have : Lighting.EPS ≤ Lighting.cube1Density + Lighting.EPS := by
        norm_num [Lighting.cube1Density, Lighting.EPS]
      linarith
    simp [Lighting.transferFunction, this, h1, not_lt.mpr h2]
  · have hEPS : Lighting.EPS < v := by
      have : Lighting.EPS ≤ Lighting.cube2Density + Lighting.EPS := by
        norm_num [Lighting.cube2Density, Lighting.EPS]
      linarith
    have hc1 : Lighting.cube1Density + Lighting.EPS < v := by
      have : Lighting.cube1Density ≤ Lighting.cube2Density := by
        norm_num [Lighting.cube1Density, Lighting.cube2Density]
      linarith
    simp [Lighting.transferFunction, hEPS, hc1, h1, not_lt.mpr h2]
  · have hEPS : Lighting.EPS < v := by
      have : (0:ℚ) ≤ Lighting.cube1Density + Lighting.cube2Density := by
        norm_num [Lighting.cube1Density, Lighting.cube2Density]
      linarith
    have hc1 : Lighting.cube1Density + Lighting.EPS < v := by
      have : (0:ℚ) ≤ Lighting.cube2Density := by norm_num [Lighting.cube2Density]
      linarith
    have hc2 : Lighting.cube2Density + Lighting.EPS < v := by
      have : (0:ℚ) ≤ Lighting.cube1Density := by norm_num [Lighting.cube1Density]
      linarith
    simp [Lighting.transferFunction, hEPS, hc1, hc2, h]
  · simp only [Overlay.transferFunction]
    rw [if_pos h]
  · simp only [Overlay.transferFunction]
    rw [if_neg (not_lt.mpr h)]

/-- Witness for C8: one value in each band of the lighting transfer function
and one on each side of the overlay threshold. -/
theorem C8_witness :
    Lighting.transferFunction 0 = zero4
      ∧ Lighting.transferFunction (1/100) = ⟨0, 0, 1, 1⟩
      ∧ Lighting.transferFunction (18/1000) = ⟨0, 1, 0, 1⟩
      ∧ Lighting.transferFunction (25/1000) = ⟨1, 0, 0, 1⟩
      ∧ Lighting.transferFunction (1/10) = ⟨0, 0, 0, 1⟩
      ∧ Overlay.transferFunction (1/4) = zero4
      ∧ Overlay.transferFunction (3/4) = ⟨3/4, 3/4, 3/4, 3/4⟩ :=
  ⟨(C8_transfer_piecewise_constant 0).1 (by with_unfolding_all decide),
    (C8_transfer_piecewise_constant (1/100)).2.1
      (by with_unfolding_all decide) (by with_unfolding_all decide),
    (C8_transfer_piecewise_constant (18/1000)).2.2.1
      (by with_unfolding_all decide) (by with_unfolding_all decide),
    (C8_transfer_piecewise_constant (25/1000)).2.2.2.1
      (by with_unfolding_all decide) (by with_unfolding_all decide),
    (C8_transfer_piecewise_constant (1/10)).2.2.2.2.1 (by with_unfolding_all decide),
    (C8_transfer_piecewise_constant (1/4)).2.2.2.2.2.1 (by with_unfolding_all decide),
    (C8_transfer_piecewise_constant (3/4)).2.2.2.2.2.2 (by with_unfolding_all decide)⟩

/-- Counterexample to C8 as stated: the value `7/10` is above the overlay
threshold `1/2` but its color has alpha `7/10 ≠ 1` (not opaque), and in the
lighting shader the two values `cube1Density + EPS` and `cube1Density + 2·EPS`
(only `EPS = 1e-7` apart) are mapped to the constant colors blue and green —
a discontinuous jump at a band boundary other than the transparency
threshold, with no interpolation between palette nodes. -/
theorem C8_counterexample :
    (1/2 : ℚ) ≤ 7/10
      ∧ (Overlay.transferFunction (7/10)).a ≠ 1
      ∧ Lighting.transferFunction (Lighting.cube1Density + Lighting.EPS) = ⟨0, 0, 1, 1⟩
      ∧ Lighting.transferFunction (Lighting.cube1Density + 2 * Lighting.EPS)
          = ⟨0, 1, 0, 1⟩ := by
  with_unfolding_all decide

/-! ## Claim C9: the stubbed lighting model -/

/-- The accumulated color (and the sampled distances) computed by the lighting
shader's loop do not depend on the gradient estimate or on the normalization
function: both feed only the ignored arguments of the stub `lighting`. -/
theorem Lighting.loop_indep (g1 g2 n1 n2 : Vec3 → Vec3) (camPos rayDir : Vec3) :
    ∀ (n : ℕ) (t : ℚ) (acc : Vec4) (fg fg' : Vec3),
      (Lighting.loop g1 n1 camPos rayDir n t acc fg).1
          = (Lighting.loop g2 n2 camPos rayDir n t acc fg').1
        ∧ (Lighting.loop g1 n1 camPos rayDir n t acc fg).2.2
          = (Lighting.loop g2 n2 camPos rayDir n t acc fg').2.2 := by
  intro n
  induction n with
  | zero => intro t acc fg fg'; exact ⟨rfl, rfl⟩
  | succ n ih =>
    intro t acc fg fg'
    by_cases h : (99:ℚ)/100 < acc.a
    · simp [Lighting.loop, h]
    · simp only [Lighting.loop, h, if_false, Lighting.lighting]
      refine ⟨(ih _ _ _ _).1, ?_⟩
      rw [(ih _ _ _ _).2]

/-- C9. The lighting shader's `lighting` function returns its
`diffuseColor` argument unchanged for every normal and eye direction, and
consequently the final pixel color is independent of the estimated gradient
(`gradFn`, modelling the stubbed, uninitialized `gradientIntermediate`) and of
the normalization applied to it.  The ambient/diffuse/specular constants of
the shader are never read by `lighting`, so they cannot influence the result
either. -/
theorem C9_lighting_is_identity :
    (∀ (diffuseColor : Vec4) (normal eyeDir : Vec3),
        Lighting.lighting diffuseColor normal eyeDir = diffuseColor)
      ∧ ∀ (g1 g2 n1 n2 : Vec3 → Vec3) (camPos rayDir : Vec3),
        Lighting.mainImage g1 n1 camPos rayDir = Lighting.mainImage g2 n2 camPos rayDir := by
  refine ⟨fun _ _ _ => rfl, fun g1 g2 n1 n2 camPos rayDir => ?_⟩
  simp only [Lighting.mainImage]
  rw [(Lighting.loop_indep g1 g2 n1 n2 camPos rayDir _ _ _ _ _).1]

/-! ## Claim C6: missed rays give the background -/

/-- C6. In both shaders, whenever the intersector reports no hit the
output fragment color is exactly the background color. -/
theorem C6_miss_yields_background (gradFn nrmFn : Vec3 → Vec3) (tex : Vec3 → ℚ)
    (camPos rayDir : Vec3) :
    ((intersectBoundingBox Lighting.bbMin Lighting.bbMax camPos rayDir).hit = false →
        Lighting.mainImage gradFn nrmFn camPos rayDir = Lighting.background)
      ∧ ((intersectBoundingBox Overlay.bbMin Overlay.bbMax camPos rayDir).hit = false →
        Overlay.mainImage tex camPos rayDir = Overlay.background) := by
  constructor
  · intro h
    simp [Lighting.mainImage, h]
  · intro h
    simp [Overlay.mainImage, h]

/-- Witness for C6: the ray from `(0, 10, 0)` in direction `(1/3, 2/3, 2/3)`
misses both bounding boxes, and both shaders output their background color. -/
theorem C6_witness :
    (intersectBoundingBox Lighting.bbMin Lighting.bbMax ⟨0, 10, 0⟩ ⟨1/3, 2/3, 2/3⟩).hit = false
      ∧ (intersectBoundingBox Overlay.bbMin Overlay.bbMax ⟨0, 10, 0⟩ ⟨1/3, 2/3, 2/3⟩).hit = false
      ∧ Lighting.mainImage (fun _ => zero3) (fun _ => zero3) ⟨0, 10, 0⟩ ⟨1/3, 2/3, 2/3⟩
          = Lighting.background
      ∧ Overlay.mainImage (fun _ => 0) ⟨0, 10, 0⟩ ⟨1/3, 2/3, 2/3⟩ = Overlay.background :=
  ⟨by with_unfolding_all decide, by with_unfolding_all decide,
    (C6_miss_yields_background (fun _ => zero3) (fun _ => zero3) (fun _ => 0)
      ⟨0, 10, 0⟩ ⟨1/3, 2/3, 2/3⟩).1 (by with_unfolding_all decide),
    (C6_miss_yields_background (fun _ => zero3) (fun _ => zero3) (fun _ => 0)
      ⟨0, 10, 0⟩ ⟨1/3, 2/3, 2/3⟩).2 (by with_unfolding_all decide)⟩

/-! ## Unfolding lemmas for the two march loops -/

/-- Unfolding: with fuel `0` the overlay loop returns the accumulator and an
empty trace. -/
theorem Overlay.loop_zero (tex : Vec3 → ℚ) (camPos rayDir : Vec3) (tFar t : ℚ)
    (i : ℤ) (acc : Vec4) :
    Overlay.loop tex camPos rayDir tFar 0 t i acc = (acc, []) := rfl

/-- Unfolding: one guarded step of the overlay loop samples at `t` and
recurses at `t + rayStepSize` with the accumulated color. -/
theorem Overlay.loop_succ_go (tex : Vec3 → ℚ) (camPos rayDir : Vec3) (tFar : ℚ)
    (n : ℕ) (t : ℚ) (i : ℤ) (acc : Vec4)
    (h1 : t < tFar) (h2 : i < Overlay.sampleNum) :
    Overlay.loop tex camPos rayDir tFar (n + 1) t i acc
      = ((Overlay.loop tex camPos rayDir tFar n (t + Overlay.rayStepSize) i
            (Overlay.accumulation (tex (camPos + t • rayDir + ⟨1/2, 1/2, 1/2⟩))
              Overlay.opacityCorrectionFactor acc)).1,
          t :: (Overlay.loop tex camPos rayDir tFar n (t + Overlay.rayStepSize) i
            (Overlay.accumulation (tex (camPos + t • rayDir + ⟨1/2, 1/2, 1/2⟩))
              Overlay.opacityCorrectionFactor acc)).2) := by
  rw [Overlay.loop, if_pos ⟨h1, h2⟩]

/-- Unfolding: once `t` has reached `tFar` the overlay loop stops. -/
theorem Overlay.loop_succ_done (tex : Vec3 → ℚ) (camPos rayDir : Vec3) (tFar : ℚ)
    (n : ℕ) (t : ℚ) (i : ℤ) (acc : Vec4) (h : ¬t < tFar) :
    Overlay.loop tex camPos rayDir tFar (n + 1) t i acc = (acc, []) := by
  rw [Overlay.loop, if_neg (fun hc => h hc.1)]

/-- Unfolding: when early ray termination does not fire, one step of the
lighting loop advances to `t + rayStepSize`, samples there, composites, and
records the new gradient. -/
theorem Lighting.loop_succ_advance (gradFn nrmFn : Vec3 → Vec3) (camPos rayDir : Vec3)
    (n : ℕ) (t : ℚ) (acc : Vec4) (fg : Vec3) (h : ¬(99:ℚ)/100 < acc.a) :
    Lighting.loop gradFn nrmFn camPos rayDir (n + 1) t acc fg
      = ((Lighting.loop gradFn nrmFn camPos rayDir n (t + Lighting.rayStepSize)
            (Lighting.composite acc (Lighting.premultiply
              (Lighting.lighting
                (Lighting.transferFunction (Lighting.sampleVolume
                  (camPos + (t + Lighting.rayStepSize) • rayDir)))
                (-(nrmFn (gradFn (camPos + (t + Lighting.rayStepSize) • rayDir))))
                (-rayDir))))
            (gradFn (camPos + (t + Lighting.rayStepSize) • rayDir))).1,
          (Lighting.loop gradFn nrmFn camPos rayDir n (t + Lighting.rayStepSize)
            (Lighting.composite acc (Lighting.premultiply
              (Lighting.lighting
                (Lighting.transferFunction (Lighting.sampleVolume
                  (camPos + (t + Lighting.rayStepSize) • rayDir)))
                (-(nrmFn (gradFn (camPos + (t + Lighting.rayStepSize) • rayDir))))
                (-rayDir))))
            (gradFn (camPos + (t + Lighting.rayStepSize) • rayDir))).2.1,
          (t + Lighting.rayStepSize)
            :: (Lighting.loop gradFn nrmFn camPos rayDir n (t + Lighting.rayStepSize)
            (Lighting.composite acc (Lighting.premultiply
              (Lighting.lighting
                (Lighting.transferFunction (Lighting.sampleVolume
                  (camPos + (t + Lighting.rayStepSize) • rayDir)))
                (-(nrmFn (gradFn (camPos + (t + Lighting.rayStepSize) • rayDir))))
                (-rayDir))))
            (gradFn (camPos + (t + Lighting.rayStepSize) • rayDir))).2.2) := by
  rw [Lighting.loop, if_neg h]

/-- Unfolding: early ray termination stops the lighting loop. -/
theorem Lighting.loop_succ_stop (gradFn nrmFn : Vec3 → Vec3) (camPos rayDir : Vec3)
    (n : ℕ) (t : ℚ) (acc : Vec4) (fg : Vec3) (h : (99:ℚ)/100 < acc.a) :
    Lighting.loop gradFn nrmFn camPos rayDir (n + 1) t acc fg = (acc, fg, []) := by
  rw [Lighting.loop, if_pos h]

/-! ## Claim C10: termination of the overlay loop -/

/-- The overlay loop never writes its counter `i`; any two counter values
below `sampleNum` produce identical runs (the `i < sampleNum` conjunct of the
guard never triggers). -/
theorem Overlay.loop_counter_never_increments (tex : Vec3 → ℚ) (camPos rayDir : Vec3)
    (tFar : ℚ) :
    ∀ (n : ℕ) (t : ℚ) (i j : ℤ) (acc : Vec4),
      i < Overlay.sampleNum → j < Overlay.sampleNum →
      Overlay.loop tex camPos rayDir tFar n t i acc
        = Overlay.loop tex camPos rayDir tFar n t j acc := by
  intro n
  induction n with
  | zero => intros; rfl
  | succ n ih =>
    intro t i j acc hi hj
    by_cases ht : t < tFar
    · rw [Overlay.loop_succ_go tex camPos rayDir tFar n t i acc ht hi,
        Overlay.loop_succ_go tex camPos rayDir tFar n t j acc ht hj,
        ih _ _ _ _ hi hj]
    · rw [Overlay.loop_succ_done tex camPos rayDir tFar n t i acc ht,
        Overlay.loop_succ_done tex camPos rayDir tFar n t j acc ht]

/-- When the marching parameter has reached the exit distance, no iterations
remain. -/
theorem Overlay.guardSteps_of_done (tFar t : ℚ) (h : ¬t < tFar) :
    Overlay.guardSteps tFar t = 0 := by
  have hs : (0:ℚ) < Overlay.rayStepSize := by
    norm_num [Overlay.rayStepSize, Overlay.bbMax, Overlay.bbMin]
  have hnum : tFar - t ≤ 0 := by linarith [not_lt.mp h]
  have hdiv : (tFar - t) / Overlay.rayStepSize ≤ 0 :=
    div_nonpos_iff.mpr (Or.inr ⟨hnum, le_of_lt hs⟩)
  have hceil : ⌈(tFar - t) / Overlay.rayStepSize⌉ ≤ 0 := by
    exact_mod_cast Int.ceil_le.mpr (by exact_mod_cast hdiv)
  simp only [Overlay.guardSteps]
  omega

/-- While the marching parameter is short of the exit distance, one more
iteration remains than from the advanced parameter. -/
theorem Overlay.guardSteps_of_step (tFar t : ℚ) (h : t < tFar) :
    Overlay.guardSteps tFar t
      = Overlay.guardSteps tFar (t + Overlay.rayStepSize) + 1 := by
  have hs : (0:ℚ) < Overlay.rayStepSize := by
    norm_num [Overlay.rayStepSize, Overlay.bbMax, Overlay.bbMin]
  have hrw : (tFar - (t + Overlay.rayStepSize)) / Overlay.rayStepSize
      = (tFar - t) / Overlay.rayStepSize - 1 := by
    rw [(by ring : tFar - (t + Overlay.rayStepSize)
          = (tFar - t) - Overlay.rayStepSize),
      sub_div, div_self (ne_of_gt hs)]
  have hpos : (0:ℚ) < (tFar - t) / Overlay.rayStepSize :=
    div_pos (by linarith) hs
  have hone : 1 ≤ ⌈(tFar - t) / Overlay.rayStepSize⌉ := Int.ceil_pos.mpr hpos
  simp only [Overlay.guardSteps, hrw, Int.ceil_sub_one]
  omega

/-- Any fuel at least `guardSteps` reproduces the run with fuel exactly
`guardSteps` (the guard `t < tFar`, not the fuel, stops the loop), and the
number of samples taken equals `guardSteps`. -/
theorem Overlay.loop_fuel_sufficient (tex : Vec3 → ℚ) (camPos rayDir : Vec3)
    (tFar : ℚ) :
    ∀ (n : ℕ) (t : ℚ) (acc : Vec4), Overlay.guardSteps tFar t ≤ n →
      Overlay.loop tex camPos rayDir tFar n t 0 acc
          = Overlay.loop tex camPos rayDir tFar (Overlay.guardSteps tFar t) t 0 acc
        ∧ (Overlay.loop tex camPos rayDir tFar n t 0 acc).2.length
          = Overlay.guardSteps tFar t := by
  intro n
  induction n with
  | zero =>
    intro t acc hn
    have h0 : Overlay.guardSteps tFar t = 0 := Nat.le_zero.mp hn
    rw [h0]
    exact ⟨rfl, rfl⟩
  | succ n ih =>
    intro t acc hn
    by_cases ht : t < tFar
    · have hrec := Overlay.guardSteps_of_step tFar t ht
      have hle : Overlay.guardSteps tFar (t + Overlay.rayStepSize) ≤ n := by omega
      have hzero : (0:ℤ) < Overlay.sampleNum := by norm_num [Overlay.sampleNum]
      have ihs := ih (t + Overlay.rayStepSize)
        (Overlay.accumulation (tex (camPos + t • rayDir + ⟨1/2, 1/2, 1/2⟩))
          Overlay.opacityCorrectionFactor acc) hle
      constructor
      · rw [hrec, Overlay.loop_succ_go tex camPos rayDir tFar n t 0 acc ht hzero,
          Overlay.loop_succ_go tex camPos rayDir tFar
            (Overlay.guardSteps tFar (t + Overlay.rayStepSize)) t 0 acc ht hzero,
          ihs.1]
      · rw [Overlay.loop_succ_go tex camPos rayDir tFar n t 0 acc ht hzero]
        dsimp only
        rw [List.length_cons, ihs.2]
        omega
    · have h0 := Overlay.guardSteps_of_done tFar t ht
      rw [h0, Overlay.loop_succ_done tex camPos rayDir tFar n t 0 acc ht]
      exact ⟨rfl, rfl⟩

/-- C10. For every run of the overlay shader's ray-march loop with a
counter below `sampleNum` (in `mainImage` it starts at `0` and, never being
incremented, stays there): the `i < sampleNum` conjunct of the guard never
triggers, so the run equals the run with counter `0`; the loop terminates
because `t` strictly increases by the fixed positive step until it reaches
`tFar` — any fuel at least `guardSteps tFar t = ⌈(tFar − t)/rayStepSize⌉`
reproduces the run with exactly that fuel; and the number of samples taken is
`⌈(tFar − t)/rayStepSize⌉.toNat`, which is not bounded by `sampleNum`. -/
theorem C10_overlay_loop_termination (tex : Vec3 → ℚ) (camPos rayDir : Vec3)
    (tFar t : ℚ) (i : ℤ) (acc : Vec4) (n : ℕ)
    (hi : i < Overlay.sampleNum) (hn : Overlay.guardSteps tFar t ≤ n) :
    Overlay.loop tex camPos rayDir tFar n t i acc
        = Overlay.loop tex camPos rayDir tFar (Overlay.guardSteps tFar t) t 0 acc
      ∧ (Overlay.loop tex camPos rayDir tFar n t i acc).2.length
        = (⌈(tFar - t) / Overlay.rayStepSize⌉).toNat := by
  have hzero : (0:ℤ) < Overlay.sampleNum := by norm_num [Overlay.sampleNum]
  have hswap := Overlay.loop_counter_never_increments tex camPos rayDir tFar n t i 0 acc
    hi hzero
  have hfuel := Overlay.loop_fuel_sufficient tex camPos rayDir tFar n t acc hn
  exact ⟨hswap.trans hfuel.1, by rw [hswap]; exact hfuel.2⟩

/-- Witness for C10: the unit ray `(1/3, 2/3, 2/3)` entering the overlay box
at `tNear = 5/4` and leaving at `tFar = 11/4` marches `225` samples — more
than `sampleNum = 150` — and surplus fuel (here `300`) and a nonzero counter
(here `7`) are irrelevant. -/
theorem C10_witness :
    Overlay.loop (fun _ => 0) ⟨-2/3, -4/3, -4/3⟩ ⟨1/3, 2/3, 2/3⟩ (11/4) 300 (5/4) 7 zero4
        = Overlay.loop (fun _ => 0) ⟨-2/3, -4/3, -4/3⟩ ⟨1/3, 2/3, 2/3⟩ (11/4)
            (Overlay.guardSteps (11/4) (5/4)) (5/4) 0 zero4
      ∧ (Overlay.loop (fun _ => 0) ⟨-2/3, -4/3, -4/3⟩ ⟨1/3, 2/3, 2/3⟩ (11/4)
            300 (5/4) 7 zero4).2.length
          = (⌈((11:ℚ)/4 - 5/4) / Overlay.rayStepSize⌉).toNat
      ∧ (⌈((11:ℚ)/4 - 5/4) / Overlay.rayStepSize⌉).toNat = 225
      ∧ Overlay.sampleNum < 225 :=
  ⟨(C10_overlay_loop_termination (fun _ => 0) ⟨-2/3, -4/3, -4/3⟩ ⟨1/3, 2/3, 2/3⟩
      (11/4) (5/4) 7 zero4 300 (by with_unfolding_all decide)
      (by with_unfolding_all decide)).1,
    (C10_overlay_loop_termination (fun _ => 0) ⟨-2/3, -4/3, -4/3⟩ ⟨1/3, 2/3, 2/3⟩
      (11/4) (5/4) 7 zero4 300 (by with_unfolding_all decide)
      (by with_unfolding_all decide)).2,
    by with_unfolding_all decide, by with_unfolding_all decide⟩

/-! ## Claim C1: structure of the ray march -/

/-- Trace structure of the lighting loop: at most `n` samples are taken, and
the `k`-th sampled parametric distance is `t + (k+1) * rayStepSize` (the
position is advanced *before* sampling). -/
theorem Lighting.loop_sample_positions (gradFn nrmFn : Vec3 → Vec3) (camPos rayDir : Vec3) :
    ∀ (n : ℕ) (t : ℚ) (acc : Vec4) (fg : Vec3),
      (Lighting.loop gradFn nrmFn camPos rayDir n t acc fg).2.2.length ≤ n
        ∧ (Lighting.loop gradFn nrmFn camPos rayDir n t acc fg).2.2
          = (List.range
                (Lighting.loop gradFn nrmFn camPos rayDir n t acc fg).2.2.length).map
              (fun k : ℕ => t + ((k : ℚ) + 1) * Lighting.rayStepSize) := by
  intro n
  induction n with
  | zero => intro t acc fg; exact ⟨Nat.le_refl 0, rfl⟩
  | succ n ih =>
    intro t acc fg
    by_cases h : (99:ℚ)/100 < acc.a
    · rw [Lighting.loop_succ_stop gradFn nrmFn camPos rayDir n t acc fg h]
      exact ⟨Nat.zero_le _, rfl⟩
    · rw [Lighting.loop_succ_advance gradFn nrmFn camPos rayDir n t acc fg h]
      dsimp only
      obtain ⟨ihlen, ihtrace⟩ := ih (t + Lighting.rayStepSize)
        (Lighting.composite acc (Lighting.premultiply
          (Lighting.lighting
            (Lighting.transferFunction (Lighting.sampleVolume
              (camPos + (t + Lighting.rayStepSize) • rayDir)))
            (-(nrmFn (gradFn (camPos + (t + Lighting.rayStepSize) • rayDir))))
            (-rayDir))))
        (gradFn (camPos + (t + Lighting.rayStepSize) • rayDir))
      constructor
      · rw [List.length_cons]
        exact Nat.succ_le_succ ihlen
      · rw [List.length_cons, List.range_succ_eq_map, List.map_cons, List.map_map]
        refine List.cons_eq_cons.mpr ⟨?_, ?_⟩
        · norm_num
        · rw [ihtrace]
          simp only [List.length_map, List.length_range]
          refine List.map_congr_left ?_
          intro k _
          simp only [Function.comp_apply]
          push_cast
          ring

/-- Trace structure of the overlay loop: the `k`-th sampled parametric
distance is `t + k * rayStepSize` (the sample is taken *before* advancing),
and every sampled distance is strictly below `tFar`. -/
theorem Overlay.loop_trace (tex : Vec3 → ℚ) (camPos rayDir : Vec3) (tFar : ℚ) :
    ∀ (n : ℕ) (t : ℚ) (i : ℤ) (acc : Vec4),
      (Overlay.loop tex camPos rayDir tFar n t i acc).2
          = (List.range (Overlay.loop tex camPos rayDir tFar n t i acc).2.length).map
              (fun k : ℕ => t + (k : ℚ) * Overlay.rayStepSize)
        ∧ (Overlay.loop tex camPos rayDir tFar n t i acc).2.all
            (fun x => decide (x < tFar)) = true := by
  intro n
  induction n with
  | zero => intro t i acc; exact ⟨rfl, rfl⟩
  | succ n ih =>
    intro t i acc
    by_cases ht : t < tFar
    · by_cases hi : i < Overlay.sampleNum
      · rw [Overlay.loop_succ_go tex camPos rayDir tFar n t i acc ht hi]
        dsimp only
        obtain ⟨ihtrace, ihall⟩ := ih (t + Overlay.rayStepSize) i
          (Overlay.accumulation (tex (camPos + t • rayDir + ⟨1/2, 1/2, 1/2⟩))
            Overlay.opacityCorrectionFactor acc)
        constructor
        · rw [List.length_cons, List.range_succ_eq_map, List.map_cons, List.map_map]
          refine List.cons_eq_cons.mpr ⟨?_, ?_⟩
          · norm_num
          · rw [ihtrace]
            simp only [List.length_map, List.length_range]
            refine List.map_congr_left ?_
            intro k _
            simp only [Function.comp_apply]
            push_cast
            ring
        · rw [List.all_cons, ihall, Bool.and_true, decide_eq_true_eq]
          exact ht
      · rw [Overlay.loop, if_neg (fun hc => hi hc.2)]
        exact ⟨rfl, rfl⟩
    · rw [Overlay.loop_succ_done tex camPos rayDir tFar n t i acc ht]
      exact ⟨rfl, rfl⟩

/-- C1 (amended). For every ray given to the shaders: in the *lighting*
shader the march starts at the entry distance clamped to `≥ 0`, advances by
the fixed step `rayStepSize = (bbMax.x − bbMin.x)/sampleNum` (sampling after
each advance), and takes at most `sampleNum` samples (stopping early only on
alpha saturation) — but it does *not* stop at the exit distance.  In the
*overlay* shader the march starts at the *unclamped* entry distance, advances
by its fixed step (sampling before each advance), and every sample is taken
strictly before the exit distance — but the sample count is not limited by
`sampleNum`. -/
theorem C1_march_structure (gradFn nrmFn : Vec3 → Vec3) (tex : Vec3 → ℚ)
    (camPos rayDir : Vec3) :
    ((Lighting.loop gradFn nrmFn camPos rayDir Lighting.sampleNum
          (if (intersectBoundingBox Lighting.bbMin Lighting.bbMax camPos rayDir).tNear < 0
            then 0
            else (intersectBoundingBox Lighting.bbMin Lighting.bbMax camPos rayDir).tNear)
          zero4 zero3).2.2.length ≤ Lighting.sampleNum
      ∧ (Lighting.loop gradFn nrmFn camPos rayDir Lighting.sampleNum
          (if (intersectBoundingBox Lighting.bbMin Lighting.bbMax camPos rayDir).tNear < 0
            then 0
            else (intersectBoundingBox Lighting.bbMin Lighting.bbMax camPos rayDir).tNear)
          zero4 zero3).2.2
        = (List.range (Lighting.loop gradFn nrmFn camPos rayDir Lighting.sampleNum
            (if (intersectBoundingBox Lighting.bbMin Lighting.bbMax camPos rayDir).tNear < 0
              then 0
              else (intersectBoundingBox Lighting.bbMin Lighting.bbMax camPos rayDir).tNear)
            zero4 zero3).2.2.length).map
            (fun k : ℕ =>
              (if (intersectBoundingBox Lighting.bbMin Lighting.bbMax camPos rayDir).tNear < 0
                then 0
                else (intersectBoundingBox Lighting.bbMin Lighting.bbMax camPos rayDir).tNear)
              + ((k : ℚ) + 1) * Lighting.rayStepSize))
    ∧ ((Overlay.loop tex camPos rayDir
          (intersectBoundingBox Overlay.bbMin Overlay.bbMax camPos rayDir).tFar
          (Overlay.guardSteps
            (intersectBoundingBox Overlay.bbMin Overlay.bbMax camPos rayDir).tFar
            (intersectBoundingBox Overlay.bbMin Overlay.bbMax camPos rayDir).tNear)
          (intersectBoundingBox Overlay.bbMin Overlay.bbMax camPos rayDir).tNear 0 zero4).2
        = (List.range (Overlay.loop tex camPos rayDir
            (intersectBoundingBox Overlay.bbMin Overlay.bbMax camPos rayDir).tFar
            (Overlay.guardSteps
              (intersectBoundingBox Overlay.bbMin Overlay.bbMax camPos rayDir).tFar
              (intersectBoundingBox Overlay.bbMin Overlay.bbMax camPos rayDir).tNear)
            (intersectBoundingBox Overlay.bbMin Overlay.bbMax camPos rayDir).tNear
            0 zero4).2.length).map
            (fun k : ℕ =>
              (intersectBoundingBox Overlay.bbMin Overlay.bbMax camPos rayDir).tNear
                + (k : ℚ) * Overlay.rayStepSize)
      ∧ (Overlay.loop tex camPos rayDir
          (intersectBoundingBox Overlay.bbMin Overlay.bbMax camPos rayDir).tFar
          (Overlay.guardSteps
            (intersectBoundingBox Overlay.bbMin Overlay.bbMax camPos rayDir).tFar
            (intersectBoundingBox Overlay.bbMin Overlay.bbMax camPos rayDir).tNear)
          (intersectBoundingBox Overlay.bbMin Overlay.bbMax camPos rayDir).tNear
          0 zero4).2.all
          (fun x => decide
            (x < (intersectBoundingBox Overlay.bbMin Overlay.bbMax camPos rayDir).tFar))
        = true) :=
  ⟨Lighting.loop_sample_positions gradFn nrmFn camPos rayDir Lighting.sampleNum _ zero4 zero3,
    Overlay.loop_trace tex camPos rayDir _ _ _ 0 zero4⟩

set_option maxRecDepth 100000 in
/-- Counterexample to C1 as stated: the ray from `(-23/6, 3/2, 3/2)` with unit
direction `(1/3, 2/3, 2/3)` hits the lighting shader's bounding box with
`tNear = 1` and `tFar = 3`, yet the lighting march — whose loop has no
`t < tFar` test — samples at parametric distance `8 > 3`, past the exit
distance. -/
theorem C1_counterexample :
    (intersectBoundingBox Lighting.bbMin Lighting.bbMax
        ⟨-23/6, 3/2, 3/2⟩ ⟨1/3, 2/3, 2/3⟩).hit = true
      ∧ (intersectBoundingBox Lighting.bbMin Lighting.bbMax
          ⟨-23/6, 3/2, 3/2⟩ ⟨1/3, 2/3, 2/3⟩).tNear = 1
      ∧ (intersectBoundingBox Lighting.bbMin Lighting.bbMax
          ⟨-23/6, 3/2, 3/2⟩ ⟨1/3, 2/3, 2/3⟩).tFar = 3
      ∧ (8:ℚ) ∈ (Lighting.loop (fun _ => zero3) (fun _ => zero3)
          ⟨-23/6, 3/2, 3/2⟩ ⟨1/3, 2/3, 2/3⟩ Lighting.sampleNum 1 zero4 zero3).2.2
      ∧ (3:ℚ) < 8 := by
  with_unfolding_all decide

/-! ## Claim C7: rays through empty space -/

/-- The stub `lighting` returns its first argument (helper for rewriting). -/
theorem Lighting.lighting_eq (diffuseColor : Vec4) (normal eyeDir : Vec3) :
    Lighting.lighting diffuseColor normal eyeDir = diffuseColor := rfl

/-- Sample values at or below `EPS` are classified fully transparent. -/
theorem Lighting.transferFunction_transparent (v : ℚ) (h : v ≤ Lighting.EPS) :
    Lighting.transferFunction v = zero4 := by
  simp [Lighting.transferFunction, not_lt.mpr h]

/-- Compositing a fully transparent sample onto the zero accumulator leaves it
zero. -/
theorem Lighting.composite_zero :
    Lighting.composite zero4 (Lighting.premultiply zero4) = zero4 := by
  with_unfolding_all decide

/-- If every sample taken by the lighting loop is at or below `EPS`, the
accumulated color stays `vec4(0)`. -/
theorem Lighting.loop_all_transparent (gradFn nrmFn : Vec3 → Vec3)
    (camPos rayDir : Vec3) :
    ∀ (n : ℕ) (t : ℚ) (fg : Vec3),
      ((Lighting.loop gradFn nrmFn camPos rayDir n t zero4 fg).2.2.all
          (fun x => decide (Lighting.sampleVolume (camPos + x • rayDir) ≤ Lighting.EPS))
        = true) →
      (Lighting.loop gradFn nrmFn camPos rayDir n t zero4 fg).1 = zero4 := by
  intro n
  induction n with
  | zero => intro t fg _; rfl
  | succ n ih =>
    intro t fg hall
    have hno : ¬(99:ℚ)/100 < zero4.a := by norm_num [zero4]
    rw [Lighting.loop_succ_advance gradFn nrmFn camPos rayDir n t zero4 fg hno] at hall ⊢
    dsimp only at hall ⊢
    rw [List.all_cons, Bool.and_eq_true] at hall
    have hval : Lighting.sampleVolume (camPos + (t + Lighting.rayStepSize) • rayDir)
        ≤ Lighting.EPS := by
      simpa using hall.1
    have hc := Lighting.transferFunction_transparent _ hval
    rw [hc, Lighting.lighting_eq, Lighting.composite_zero] at hall ⊢
    exact ih (t + Lighting.rayStepSize) _ hall.2

/-- C7 (amended). In the *lighting* shader, for every ray that hits the
bounding box but samples only values at or below the transfer function's
transparency threshold `EPS` along its march, the output fragment color is
exactly the background color.  (The overlay shader violates the original
claim: its placeholder accumulation writes a non-zero color even for samples
its transfer function classifies as fully transparent — see the
counterexample.) -/
theorem C7_lighting_empty_space (gradFn nrmFn : Vec3 → Vec3) (camPos rayDir : Vec3)
    (hhit : (intersectBoundingBox Lighting.bbMin Lighting.bbMax camPos rayDir).hit = true)
    (htrans : ((Lighting.loop gradFn nrmFn camPos rayDir Lighting.sampleNum
          (if (intersectBoundingBox Lighting.bbMin Lighting.bbMax camPos rayDir).tNear < 0
            then 0
            else (intersectBoundingBox Lighting.bbMin Lighting.bbMax camPos rayDir).tNear)
          zero4 zero3).2.2.all
        (fun x => decide (Lighting.sampleVolume (camPos + x • rayDir) ≤ Lighting.EPS)))
      = true) :
    Lighting.mainImage gradFn nrmFn camPos rayDir = Lighting.background := by
  have hfc := Lighting.loop_all_transparent gradFn nrmFn camPos rayDir
    Lighting.sampleNum
    (if (intersectBoundingBox Lighting.bbMin Lighting.bbMax camPos rayDir).tNear < 0
      then 0
      else (intersectBoundingBox Lighting.bbMin Lighting.bbMax camPos rayDir).tNear)
    zero3 htrans
  simp only [Lighting.mainImage, hhit, Bool.not_true, Bool.false_eq_true, if_false]
  rw [hfc]
  with_unfolding_all decide

set_option maxRecDepth 1000000 in
/-- Witness for C7: the ray from `(-23/6, 3/2, 3/2)` with direction
`(1/3, 2/3, 2/3)` hits the lighting box (entry `1`, exit `3`) but misses both
cubes and the sphere at all 256 sampled positions, and the shader outputs the
background color. -/
theorem C7_witness :
    (intersectBoundingBox Lighting.bbMin Lighting.bbMax
        ⟨-23/6, 3/2, 3/2⟩ ⟨1/3, 2/3, 2/3⟩).hit = true
      ∧ ((Lighting.loop (fun _ => zero3) (fun _ => zero3)
            ⟨-23/6, 3/2, 3/2⟩ ⟨1/3, 2/3, 2/3⟩ Lighting.sampleNum
            (if (intersectBoundingBox Lighting.bbMin Lighting.bbMax
                  ⟨-23/6, 3/2, 3/2⟩ ⟨1/3, 2/3, 2/3⟩).tNear < 0
              then 0
              else (intersectBoundingBox Lighting.bbMin Lighting.bbMax
                  ⟨-23/6, 3/2, 3/2⟩ ⟨1/3, 2/3, 2/3⟩).tNear)
            zero4 zero3).2.2.all
          (fun x => decide (Lighting.sampleVolume
            (⟨-23/6, 3/2, 3/2⟩ + x • ⟨1/3, 2/3, 2/3⟩) ≤ Lighting.EPS))) = true
      ∧ Lighting.mainImage (fun _ => zero3) (fun _ => zero3)
          ⟨-23/6, 3/2, 3/2⟩ ⟨1/3, 2/3, 2/3⟩ = Lighting.background :=
  ⟨by with_unfolding_all decide, by with_unfolding_all decide,
    C7_lighting_empty_space (fun _ => zero3) (fun _ => zero3)
      ⟨-23/6, 3/2, 3/2⟩ ⟨1/3, 2/3, 2/3⟩
      (by with_unfolding_all decide) (by with_unfolding_all decide)⟩

set_option maxRecDepth 1000000 in
/-- Counterexample to C7 as stated: in the overlay shader, the ray from
`(-2/3, -4/3, -4/3)` with direction `(1/3, 2/3, 2/3)` hits the box, and with a
constant texture of value `2/5` every sample is below the transfer threshold
`1/2` (classified fully transparent) — yet the output differs from the
background, because the placeholder accumulation writes `vec4(0.5)*value`
regardless of the transfer function. -/
theorem C7_counterexample :
    (intersectBoundingBox Overlay.bbMin Overlay.bbMax
        ⟨-2/3, -4/3, -4/3⟩ ⟨1/3, 2/3, 2/3⟩).hit = true
      ∧ ((Overlay.loop (fun _ => 2/5) ⟨-2/3, -4/3, -4/3⟩ ⟨1/3, 2/3, 2/3⟩
            (intersectBoundingBox Overlay.bbMin Overlay.bbMax
              ⟨-2/3, -4/3, -4/3⟩ ⟨1/3, 2/3, 2/3⟩).tFar
            (Overlay.guardSteps
              (intersectBoundingBox Overlay.bbMin Overlay.bbMax
                ⟨-2/3, -4/3, -4/3⟩ ⟨1/3, 2/3, 2/3⟩).tFar
              (intersectBoundingBox Overlay.bbMin Overlay.bbMax
                ⟨-2/3, -4/3, -4/3⟩ ⟨1/3, 2/3, 2/3⟩).tNear)
            (intersectBoundingBox Overlay.bbMin Overlay.bbMax
              ⟨-2/3, -4/3, -4/3⟩ ⟨1/3, 2/3, 2/3⟩).tNear 0 zero4).2.all
          (fun x => decide (Overlay.transferFunction
            ((fun _ => (2:ℚ)/5)
              (⟨-2/3, -4/3, -4/3⟩ + x • ⟨1/3, 2/3, 2/3⟩ + (⟨1/2, 1/2, 1/2⟩ : Vec3)))
            = zero4))) = true
      ∧ Overlay.mainImage (fun _ => 2/5) ⟨-2/3, -4/3, -4/3⟩ ⟨1/3, 2/3, 2/3⟩
          ≠ Overlay.background := by
  refine ⟨by with_unfolding_all decide, by with_unfolding_all decide,
    by with_unfolding_all decide⟩

/-- Witness for C2 at the ray from `(0, 10, 0)` with direction
`(1/3, 2/3, 2/3)` against the overlay bounding box: its exit distance lies
below its entry distance and the intersector reports no hit. -/
theorem C2_witness :
    (intersectBoundingBox Overlay.bbMin Overlay.bbMax ⟨0, 10, 0⟩ ⟨1/3, 2/3, 2/3⟩).tNear
        = specEntry Overlay.bbMin Overlay.bbMax ⟨0, 10, 0⟩ ⟨1/3, 2/3, 2/3⟩
      ∧ (intersectBoundingBox Overlay.bbMin Overlay.bbMax ⟨0, 10, 0⟩ ⟨1/3, 2/3, 2/3⟩).tFar
          ≤ (intersectBoundingBox Overlay.bbMin Overlay.bbMax
              ⟨0, 10, 0⟩ ⟨1/3, 2/3, 2/3⟩).tNear
      ∧ (intersectBoundingBox Overlay.bbMin Overlay.bbMax
            ⟨0, 10, 0⟩ ⟨1/3, 2/3, 2/3⟩).hit = false :=
  ⟨(C2_intersector_slab_method Overlay.bbMin Overlay.bbMax
      ⟨0, 10, 0⟩ ⟨1/3, 2/3, 2/3⟩).1,
    by with_unfolding_all decide,
    (C2_intersector_slab_method Overlay.bbMin Overlay.bbMax
        ⟨0, 10, 0⟩ ⟨1/3, 2/3, 2/3⟩).2.2.2
      (by with_unfolding_all decide)⟩
